import Mathlib

/-!
Verification of the GenBanana image-generation client (src/index.tsx).

Shallow embedding of the TypeScript source in `src/index.tsx`:

* `placeholderDims` / `generatePlaceholderImage` embed the dimension
  computation of `generatePlaceholderImage` (lines 33-60).  The source
  receives the aspect ratio as a string `"w:h"` and splits it into the two
  numeric components `widthRatio`/`heightRatio`; the embedding takes those
  two components directly.  The canvas rendering plus `toDataURL` encoding
  (an opaque DOM capability) is abstracted as a parameter
  `enc : ℕ → ℕ → String` mapping pixel dimensions to the base64 payload.
* `jsRound` embeds JavaScript `Math.round` applied to the non-negative
  rational `num / den`: `Math.round x = ⌊x + 1/2⌋` (half rounds up).
* `generateImage` embeds the async workflow of the same name
  (lines 65-118).  The remote capability `ai.models.generateContent` is a
  parameter `remote : Request → Except String GenResponse`: `Except.error`
  models a rejected promise / thrown exception carrying the error message,
  `Except.ok` a resolved response.  The function returns the final UI state
  together with the trace of remote calls issued, each paired with the UI
  state at the moment the call was issued.
* `showError`, `clearOutput`, `setLoading`, `displayImage` embed the DOM
  helpers of the same names; the mutated DOM is the record `UIState`.
-/

namespace GenBanana

/-- Inline binary payload carried by a request or response part
(`inlineData` in the source: mime type + base64 data). -/
structure InlineData where
  mimeType : String
  data : String
  deriving DecidableEq, Repr

/-- One content part of a model response: it may carry inline data and/or
text (`part.inlineData`, `part.text` in the source). -/
structure RespPart where
  inlineData : Option InlineData
  text : Option String
  deriving DecidableEq, Repr

/-- Field `content` of a candidate: an ordered list of parts. -/
structure Content where
  parts : List RespPart
  deriving DecidableEq, Repr

/-- One response candidate. -/
structure Candidate where
  content : Content
  deriving DecidableEq, Repr

/-- A response of the remote capability.  An absent (`undefined`) or empty
`candidates` array is modelled as the empty list: the source guards
`response.candidates && response.candidates.length > 0`, which treats the
two identically. -/
structure GenResponse where
  candidates : List Candidate
  deriving DecidableEq, Repr

/-- Response modalities requested in the call configuration. -/
inductive Modality where
  | IMAGE
  | TEXT
  deriving DecidableEq, Repr

/-- One item of the `contents` array of a request: a text part or an
inline-data part. -/
inductive ContentItem where
  | textItem (t : String)
  | inlineItem (mimeType : String) (data : String)
  deriving DecidableEq, Repr

/-- The request handed to `ai.models.generateContent` (lines 80-89). -/
structure Request where
  model : String
  contents : List ContentItem
  responseModalities : List Modality
  deriving DecidableEq, Repr

/-- Content of the image display area (`imageDisplayArea.innerHTML`):
the initial placeholder markup, the loading markup, or a rendered image
with its download link.  `downloadName` is the `download` attribute of the
link created in `displayImage`. -/
inductive DisplayContent where
  | placeholderContent
  | loader
  | image (data : String) (mimeType : String) (alt : String) (downloadName : String)
  deriving DecidableEq, Repr

/-- The DOM state the workflow mutates: the error message element
(`textContent` + whether `style.display` is `block`), the image display
area (its content and its `has-image` / `loading` classes) and the
generate button (`disabled` + `innerHTML`). -/
structure UIState where
  errText : String
  errVisible : Bool
  display : DisplayContent
  hasImageClass : Bool
  loadingClass : Bool
  btnDisabled : Bool
  btnLabel : String
  deriving DecidableEq, Repr

/-- Button markup while generating (line 186). -/
def generatingLabel : String := "<i class=\"fa-solid fa-hourglass-half\"></i> Generating..."

/-- Button markup when idle (line 198). -/
def generateLabel : String := "<i class=\"fa-solid fa-wand-magic-sparkles\"></i> Generate"

/-- Error message for an empty prompt (line 68). -/
def emptyPromptMsg : String := "Please enter a prompt."

/-- Error message when the response carries no image (lines 107-109). -/
def noImageMsg : String := "The model did not return an image. Please try a different prompt."

/-- Fixed text prepended to the underlying error message (line 114). -/
def errorIntro : String := "An error occurred: "

/-- Fixed instruction appended to the prompt (line 78). -/
def ratioInstruction : String := ". Do not change the input aspect ratio."

/-- Model identifier of the remote call (line 81). -/
def modelName : String := "gemini-2.5-flash-image-preview"

/-- UI state on page load: no error shown, placeholder content, idle button. -/
def initialUI : UIState :=
  { errText := ""
    errVisible := false
    display := DisplayContent.placeholderContent
    hasImageClass := false
    loadingClass := false
    btnDisabled := false
    btnLabel := generateLabel }

/-- JavaScript `Math.round (num / den)` for natural `num`, `den` with
`den > 0`: `Math.round x = ⌊x + 1/2⌋`, and
`num/den + 1/2 = (2*num + den) / (2*den)`, whose floor is natural
division. -/
def jsRound (num den : ℕ) : ℕ :=
  (2 * num + den) / (2 * den)

/-- Constant `MAX_DIMENSION` (line 42). -/
def MAX_DIMENSION : ℕ := 512

/-- Pixel dimensions computed by `generatePlaceholderImage`
(lines 45-51): if `widthRatio ≥ heightRatio`, width is `MAX_DIMENSION`
and height is `Math.round(MAX_DIMENSION * heightRatio / widthRatio)`;
otherwise height is `MAX_DIMENSION` and width is
`Math.round(MAX_DIMENSION * widthRatio / heightRatio)`. -/
def placeholderDims (widthRatio heightRatio : ℕ) : ℕ × ℕ :=
  if heightRatio ≤ widthRatio then
    (MAX_DIMENSION, jsRound (MAX_DIMENSION * heightRatio) widthRatio)
  else
    (jsRound (MAX_DIMENSION * widthRatio) heightRatio, MAX_DIMENSION)

/-- Embedding of `generatePlaceholderImage` (lines 33-60): compute the pixel
dimensions, render a uniform canvas of that size and return its base64
PNG payload with the data-URL envelope stripped.  The rendering/encoding
is the abstract parameter `enc`. -/
def generatePlaceholderImage (enc : ℕ → ℕ → String)
    (widthRatio heightRatio : ℕ) : String :=
  enc (placeholderDims widthRatio heightRatio).1
    (placeholderDims widthRatio heightRatio).2

/-- Whether `c` matches the case-insensitive character class `[a-z0-9]`
of the regex on line 138. -/
def isAlphanumeric (c : Char) : Bool :=
  decide (('a' ≤ c ∧ c ≤ 'z') ∨ ('A' ≤ c ∧ c ≤ 'Z') ∨ ('0' ≤ c ∧ c ≤ '9'))

/-- Embedding of line 138, substring then replace:
take the first 30 characters and replace every non-alphanumeric one
with an underscore. -/
def sanitizeBase (altText : String) : String :=
  String.mk ((altText.toList.take 30).map
    (fun c => if isAlphanumeric c then c else '_'))

/-- Embedding of `safeFilename` (lines 137-138): the sanitized base, or the fixed
fallback when it is empty (JavaScript `||` falls through exactly on the
empty string). -/
def safeFilename (altText : String) : String :=
  if sanitizeBase altText = "" then "genbanana-art" else sanitizeBase altText

/-- The `download` attribute set on the link (line 139). -/
def downloadName (altText : String) : String :=
  safeFilename altText ++ ".png"

/-- Embedding of `showError` (lines 150-158): a non-empty message is shown
(JavaScript truthiness of a string is non-emptiness), the empty message
clears and hides the element. -/
def showError (message : String) (s : UIState) : UIState :=
  if message = "" then { s with errText := "", errVisible := false }
  else { s with errText := message, errVisible := true }

/-- Embedding of `clearOutput` (lines 163-171): restore the placeholder markup and
drop the `has-image` class. -/
def clearOutput (s : UIState) : UIState :=
  { s with display := DisplayContent.placeholderContent, hasImageClass := false }

/-- Embedding of `setLoading` (lines 176-200).  `true`: clear output, show the loader
markup, add the `loading` class, disable the button.  `false`: restore
the placeholder when the area is still loading without an image, remove
the `loading` class, enable the button. -/
def setLoading (isLoading : Bool) (s : UIState) : UIState :=
  if isLoading then
    { clearOutput s with
        display := DisplayContent.loader
        loadingClass := true
        btnDisabled := true
        btnLabel := generatingLabel }
  else
    let s1 := if s.loadingClass && !s.hasImageClass then clearOutput s else s
    { s1 with
        loadingClass := false
        btnDisabled := false
        btnLabel := generateLabel }

/-- Embedding of `displayImage` (lines 123-145): replace the display area content with
the image plus its download link and add the `has-image` class. -/
def displayImage (base64Data mimeType altText : String) (s : UIState) : UIState :=
  { s with
      display := DisplayContent.image base64Data mimeType altText (downloadName altText)
      hasImageClass := true }

/-- The scan of lines 93-103: the first part of the list whose
`inlineData` is present, if any. -/
def findInline : List RespPart → Option InlineData
  | [] => none
  | p :: rest =>
    match p.inlineData with
    | some d => some d
    | none => findInline rest

/-- Response handling of lines 91-104: when at least one candidate is
present, scan the content parts of the first candidate for inline data;
otherwise no image output. -/
def scanResponse (r : GenResponse) : Option InlineData :=
  match r.candidates with
  | [] => none
  | c :: _ => findInline c.content.parts

/-- Embedding of `generateImage` (lines 65-118).  `remote` is the external capability;
`enc` the canvas encoder; `widthRatio`/`heightRatio` the parsed components
of the selected aspect ratio.  Returns the final UI state and the list of
remote calls issued, each paired with the UI state at the moment of the
call.  The `try`/`catch`/`finally` of the source becomes the `match` on the
`Except` result, with `setLoading false` applied on every exit path of
the `try` block. -/
def generateImage (remote : Request → Except String GenResponse)
    (enc : ℕ → ℕ → String) (promptText : String)
    (widthRatio heightRatio : ℕ) (s0 : UIState) :
    UIState × List (Request × UIState) :=
  if promptText = "" then
    (showError emptyPromptMsg s0, [])
  else
    let s1 := setLoading true s0
    let s2 := showError "" s1
    let placeholderBase64 := generatePlaceholderImage enc widthRatio heightRatio
    let fullPrompt := promptText ++ ratioInstruction
    let req : Request :=
      { model := modelName
        contents := [ContentItem.textItem fullPrompt,
                     ContentItem.inlineItem "image/png" placeholderBase64]
        responseModalities := [Modality.IMAGE, Modality.TEXT] }
    match remote req with
    | Except.error msg =>
        (setLoading false (showError (errorIntro ++ msg) s2), [(req, s2)])
    | Except.ok response =>
        match scanResponse response with
        | some d =>
            (setLoading false (displayImage d.data d.mimeType promptText s2),
             [(req, s2)])
        | none =>
            (setLoading false (showError noImageMsg s2), [(req, s2)])

/-- The UI state right after setLoading true then showError of the empty string
(lines 73-74), for any starting state: loader markup shown, `loading`
class set, button disabled, error element cleared and hidden. -/
def busyUI : UIState :=
  { errText := ""
    errVisible := false
    display := DisplayContent.loader
    hasImageClass := false
    loadingClass := true
    btnDisabled := true
    btnLabel := generatingLabel }

/-- The request composed on lines 77-89: full prompt text plus the
placeholder payload tagged as inline PNG data. -/
def composedRequest (enc : ℕ → ℕ → String) (promptText : String)
    (widthRatio heightRatio : ℕ) : Request :=
  { model := modelName
    contents := [ContentItem.textItem (promptText ++ ratioInstruction),
                 ContentItem.inlineItem "image/png"
                   (generatePlaceholderImage enc widthRatio heightRatio)]
    responseModalities := [Modality.IMAGE, Modality.TEXT] }

/-! Helper lemmas shared by the claim theorems. -/

/-- Evaluation rule: `jsRound` agrees with the mathematical round of the rational
`num / den`; `round x = ⌊x + 1/2⌋` matches JavaScript `Math.round` on
non-negative inputs. -/
theorem jsRound_eq_round (n d : ℕ) (hd : 0 < d) :
    (jsRound n d : ℤ) = round ((n : ℚ) / (d : ℚ)) := by
  have hd' : (0 : ℚ) < (d : ℚ) := by exact_mod_cast hd
  rw [round_eq]
  have h1 : (n : ℚ) / (d : ℚ) + 1 / 2 = ((2 * n + d : ℕ) : ℚ) / ((2 * d : ℕ) : ℚ) := by
    push_cast
    field_simp
    ring
  rw [h1, ← Int.natCast_floor_eq_floor (by positivity), Nat.floor_div_eq_div]
  rfl

/-- Version of `jsRound_eq_round` through `Int.toNat`. -/
theorem jsRound_toNat (n d : ℕ) (hd : 0 < d) :
    (round ((n : ℚ) / (d : ℚ))).toNat = jsRound n d := by
  rw [← jsRound_eq_round n d hd]
  exact Int.toNat_natCast _

/-- Unfolding of `generateImage` for a non-empty prompt: the busy state
is entered, the error display cleared, exactly one remote call is issued
with the composed request, and the three exit paths each run
`setLoading false` last. -/
theorem generateImage_eq (remote : Request → Except String GenResponse)
    (enc : ℕ → ℕ → String) (promptText : String) (wr hr : ℕ) (s0 : UIState)
    (h : promptText ≠ "") :
    generateImage remote enc promptText wr hr s0 =
      match remote (composedRequest enc promptText wr hr) with
      | Except.error msg =>
          (setLoading false (showError (errorIntro ++ msg) busyUI),
           [(composedRequest enc promptText wr hr, busyUI)])
      | Except.ok response =>
          match scanResponse response with
          | some d =>
              (setLoading false (displayImage d.data d.mimeType promptText busyUI),
               [(composedRequest enc promptText wr hr, busyUI)])
          | none =>
              (setLoading false (showError noImageMsg busyUI),
               [(composedRequest enc promptText wr hr, busyUI)]) := by
  have hs2 : showError "" (setLoading true s0) = busyUI := by
    simp [setLoading, showError, clearOutput, busyUI]
  unfold generateImage
  rw [if_neg h]
  simp only [hs2, composedRequest, generatePlaceholderImage]

end GenBanana
namespace GenBanana

/-- C2: for positive integer ratio components `w:h`, the dimension
deriver returns width 512 and height `round (512*h/w)` when `w ≥ h`, and
height 512 and width `round (512*w/h)` otherwise; in particular 16:9
gives (512, 288), 9:16 gives (288, 512) and 1:1 gives (512, 512). -/
theorem placeholder_dims_match_round_spec :
    (∀ w h : ℕ, 0 < w → 0 < h →
      placeholderDims w h =
        if h ≤ w then (512, (round ((512 * (h : ℚ)) / (w : ℚ))).toNat)
        else ((round ((512 * (w : ℚ)) / (h : ℚ))).toNat, 512)) ∧
    placeholderDims 16 9 = (512, 288) ∧
    placeholderDims 9 16 = (288, 512) ∧
    placeholderDims 1 1 = (512, 512) := by
  refine ⟨?_, by decide, by decide, by decide⟩
  intro w h hw hh
  unfold placeholderDims MAX_DIMENSION
  by_cases hle : h ≤ w
  · rw [if_pos hle, if_pos hle]
    have := jsRound_toNat (512 * h) w hw
    rw [show ((512 * h : ℕ) : ℚ) = 512 * (h : ℚ) by push_cast; ring] at this
    rw [this]
  · rw [if_neg hle, if_neg hle]
    have := jsRound_toNat (512 * w) h hh
    rw [show ((512 * w : ℕ) : ℚ) = 512 * (w : ℚ) by push_cast; ring] at this
    rw [this]

/-- Witness for C2 at the concrete ratio 16:9. -/
theorem placeholder_dims_witness :
    placeholderDims 16 9 =
      (if (9 : ℕ) ≤ 16 then ((512 : ℕ), (round ((512 * (9 : ℚ)) / (16 : ℚ))).toNat)
       else ((round ((512 * (16 : ℚ)) / (9 : ℚ))).toNat, 512)) :=
  placeholder_dims_match_round_spec.1 16 9 (by decide) (by decide)

/-- C5 (amended): the scaled-and-rounded smaller dimension is at least 1
whenever neither ratio component exceeds 1024 times the other (which
holds for every ratio the UI offers); for more extreme ratios it rounds
to 0, see the counterexample. -/
theorem scaled_dimension_positive :
    ∀ w h : ℕ, 0 < w → 0 < h → w ≤ 1024 * h → h ≤ 1024 * w →
      1 ≤ (placeholderDims w h).1 ∧ 1 ≤ (placeholderDims w h).2 := by
  intro w h hw hh hwh hhw
  unfold placeholderDims MAX_DIMENSION jsRound
  by_cases hle : h ≤ w
  · rw [if_pos hle]
    refine ⟨by norm_num, ?_⟩
    rw [Nat.le_div_iff_mul_le (by omega)]
    omega
  · rw [if_neg hle]
    refine ⟨?_, by norm_num⟩
    rw [Nat.le_div_iff_mul_le (by omega)]
    omega

/-- C5 counterexample: for the valid ratio 1025:1 the derived smaller
dimension is `round (512/1025) = 0`, not `≥ 1`. -/
theorem extreme_ratio_rounds_to_zero :
    placeholderDims 1025 1 = (512, 0) ∧ ¬ (1 ≤ (placeholderDims 1025 1).2) := by
  decide

/-- Witness for the amended C5 at the concrete ratio 16:9. -/
theorem scaled_dimension_positive_witness :
    1 ≤ (placeholderDims 16 9).1 ∧ 1 ≤ (placeholderDims 16 9).2 :=
  scaled_dimension_positive 16 9 (by decide) (by decide) (by decide) (by decide)

/-- C9: swapping the ratio components swaps the derived pixel
dimensions. -/
theorem placeholder_dims_swap_symmetric :
    ∀ w h : ℕ, 0 < w → 0 < h →
      placeholderDims w h = ((placeholderDims h w).2, (placeholderDims h w).1) := by
  intro w h hw hh
  unfold placeholderDims MAX_DIMENSION
  rcases lt_trichotomy h w with hlt | heq | hgt
  · rw [if_pos (le_of_lt hlt), if_neg (not_le.mpr hlt)]
  · subst heq
    have hj : jsRound (512 * h) h = 512 := by
      unfold jsRound
      exact Nat.div_eq_of_lt_le (by omega) (by omega)
    simp [hj]
  · rw [if_neg (not_le.mpr hgt), if_pos (le_of_lt hgt)]

/-- Witness for C9 at the concrete ratio pair 16:9 / 9:16. -/
theorem placeholder_dims_swap_witness :
    placeholderDims 16 9 = ((placeholderDims 9 16).2, (placeholderDims 9 16).1) :=
  placeholder_dims_swap_symmetric 16 9 (by decide) (by decide)

end GenBanana
namespace GenBanana

/-- The sanitized base is empty exactly when the prompt is empty:
the replacement maps characters one-to-one, so it preserves length. -/
theorem sanitizeBase_empty_iff (p : String) : sanitizeBase p = "" ↔ p = "" := by
  constructor
  · intro hp
    have h1 : ((p.toList.take 30).map
        (fun c => if isAlphanumeric c then c else '_')).length = 0 :=
      congrArg String.length hp
    rw [List.length_map, List.length_take] at h1
    have h3 : p.toList = [] := List.length_eq_zero.mp (by omega)
    cases p with
    | mk data =>
      exact congrArg String.mk h3
  · intro hp
    subst hp
    rfl

/-- C8: the suggested download filename is the first 30 characters of
the prompt with non-alphanumerics replaced by underscores, suffixed
".png", with the fixed fallback base exactly when the sanitized base is
empty (equivalently, the prompt is empty); "A yellow camaro!!" yields
the base "A_yellow_camaro__". -/
theorem download_filename_derivation :
    safeFilename "A yellow camaro!!" = "A_yellow_camaro__" ∧
    (∀ p : String, downloadName p = safeFilename p ++ ".png") ∧
    (∀ p : String, p ≠ "" → safeFilename p = sanitizeBase p) ∧
    safeFilename "" = "genbanana-art" ∧
    (∀ p : String, sanitizeBase p = "" ↔ p = "") := by
  refine ⟨by decide, fun p => rfl, ?_, by decide, sanitizeBase_empty_iff⟩
  intro p hp
  unfold safeFilename
  rw [if_neg (fun h => hp ((sanitizeBase_empty_iff p).mp h))]

/-- Witness for C8 at a concrete non-empty prompt. -/
theorem download_filename_derivation_witness :
    safeFilename "abc" = sanitizeBase "abc" :=
  download_filename_derivation.2.2.1 "abc" (by decide)

end GenBanana
namespace GenBanana

/-- Message `noImageMsg` is not the empty string (so `showError` shows it). -/
theorem noImageMsg_ne_empty : noImageMsg ≠ "" := by decide

/-- Message `emptyPromptMsg` is not the empty string. -/
theorem emptyPromptMsg_ne_empty : emptyPromptMsg ≠ "" := by decide

/-- The displayed remote-failure message is never empty. -/
theorem errorIntro_append_ne_empty (msg : String) : errorIntro ++ msg ≠ "" := by
  intro h
  have h1 : (errorIntro ++ msg).length = 0 := congrArg String.length h
  rw [String.length_append] at h1
  have h2 : errorIntro.length = 19 := rfl
  omega

/-- C1 (amended): only the exactly-empty prompt is rejected without a
remote call; the check on line 67 is on the untrimmed prompt, so this
holds for `""` but not for whitespace-only prompts (see the
counterexample). -/
theorem empty_prompt_no_remote_call :
    ∀ (remote : Request → Except String GenResponse) (enc : ℕ → ℕ → String)
      (wr hr : ℕ) (s0 : UIState),
      (generateImage remote enc "" wr hr s0).2 = [] ∧
      (generateImage remote enc "" wr hr s0).1.errText = emptyPromptMsg ∧
      (generateImage remote enc "" wr hr s0).1.errVisible = true := by
  intro remote enc wr hr s0
  unfold generateImage
  rw [if_pos rfl]
  refine ⟨rfl, ?_, ?_⟩ <;> simp [showError, emptyPromptMsg_ne_empty]

/-- C1 counterexample: the whitespace-only prompt `" "` passes the
truthiness check, so the remote capability is invoked (one call in the
trace) and the eventual error is the remote one, not the user-input
message. -/
theorem whitespace_prompt_triggers_remote_call :
    (generateImage (fun _ => Except.error "network down") (fun _ _ => "AAAA")
        " " 1 1 initialUI).2.length = 1 ∧
    (generateImage (fun _ => Except.error "network down") (fun _ _ => "AAAA")
        " " 1 1 initialUI).1.errText ≠ emptyPromptMsg := by
  decide

/-- C4 (amended): on a remote failure the displayed message is the fixed
text "An error occurred: " followed by the underlying error text — the
underlying text is visible verbatim as a suffix, but the displayed
message is not equal to it. -/
theorem remote_error_text_surfaced :
    ∀ (enc : ℕ → ℕ → String) (promptText : String) (wr hr : ℕ) (s0 : UIState)
      (msg : String), promptText ≠ "" →
      (generateImage (fun _ => Except.error msg) enc promptText wr hr s0).1.errText
          = errorIntro ++ msg ∧
      (generateImage (fun _ => Except.error msg) enc promptText wr hr s0).1.errVisible
          = true := by
  intro enc promptText wr hr s0 msg h
  rw [generateImage_eq _ enc promptText wr hr s0 h]
  simp [setLoading, showError, clearOutput, busyUI, errorIntro_append_ne_empty]

/-- Witness for the amended C4 at a concrete failing call. -/
theorem remote_error_text_surfaced_witness :
    (generateImage (fun _ => Except.error "boom") (fun _ _ => "B") "cat" 1 1
        initialUI).1.errText = errorIntro ++ "boom" ∧
    (generateImage (fun _ => Except.error "boom") (fun _ _ => "B") "cat" 1 1
        initialUI).1.errVisible = true :=
  remote_error_text_surfaced (fun _ _ => "B") "cat" 1 1 initialUI "boom" (by decide)

/-- C4 counterexample: for the underlying error text "boom" the
displayed message is "An error occurred: boom", not "boom" itself. -/
theorem remote_error_message_prefixed :
    (generateImage (fun _ => Except.error "boom") (fun _ _ => "B") "cat" 1 1
        initialUI).1.errText ≠ "boom" ∧
    (generateImage (fun _ => Except.error "boom") (fun _ _ => "B") "cat" 1 1
        initialUI).1.errText = "An error occurred: boom" := by
  decide

/-- C6: for a non-empty prompt the busy state (loading class set, button
disabled) holds at the moment of every remote call in the trace, and the
final state has it cleared, whatever the remote outcome (success, empty
result, or thrown error). -/
theorem busy_flag_lifecycle :
    ∀ (remote : Request → Except String GenResponse) (enc : ℕ → ℕ → String)
      (promptText : String) (wr hr : ℕ) (s0 : UIState), promptText ≠ "" →
      (∀ c ∈ (generateImage remote enc promptText wr hr s0).2,
          c.2.loadingClass = true ∧ c.2.btnDisabled = true) ∧
      (generateImage remote enc promptText wr hr s0).1.loadingClass = false ∧
      (generateImage remote enc promptText wr hr s0).1.btnDisabled = false := by
  intro remote enc promptText wr hr s0 h
  rw [generateImage_eq remote enc promptText wr hr s0 h]
  cases remote (composedRequest enc promptText wr hr) with
  | error msg =>
      simp [setLoading, showError, clearOutput, busyUI, errorIntro_append_ne_empty]
  | ok response =>
      cases hscan : scanResponse response <;>
        simp [hscan, setLoading, showError, displayImage, clearOutput, busyUI,
          noImageMsg_ne_empty]

/-- Witness for C6 at a concrete failing call. -/
theorem busy_flag_lifecycle_witness :
    (generateImage (fun _ => Except.error "x") (fun _ _ => "B") "cat" 1 1
        initialUI).1.loadingClass = false ∧
    (generateImage (fun _ => Except.error "x") (fun _ _ => "B") "cat" 1 1
        initialUI).1.btnDisabled = false :=
  (busy_flag_lifecycle (fun _ => Except.error "x") (fun _ _ => "B") "cat" 1 1
    initialUI (by decide)).2

/-- C7: for a non-empty prompt exactly one remote call is issued,
whatever the outcome, and its request consists of the prompt text with
the fixed aspect-ratio instruction appended plus the derived placeholder
payload tagged as inline PNG data. -/
theorem single_remote_call_request_shape :
    ∀ (remote : Request → Except String GenResponse) (enc : ℕ → ℕ → String)
      (promptText : String) (wr hr : ℕ) (s0 : UIState), promptText ≠ "" →
      (generateImage remote enc promptText wr hr s0).2.map Prod.fst =
        [{ model := modelName
           contents := [ContentItem.textItem (promptText ++ ratioInstruction),
                        ContentItem.inlineItem "image/png"
                          (enc (placeholderDims wr hr).1 (placeholderDims wr hr).2)]
           responseModalities := [Modality.IMAGE, Modality.TEXT] }] := by
  intro remote enc promptText wr hr s0 h
  rw [generateImage_eq remote enc promptText wr hr s0 h]
  cases remote (composedRequest enc promptText wr hr) with
  | error msg => simp [composedRequest, generatePlaceholderImage]
  | ok response =>
      cases hscan : scanResponse response <;>
        simp [hscan, composedRequest, generatePlaceholderImage]

/-- Witness for C7 at a concrete call. -/
theorem single_remote_call_request_shape_witness :
    (generateImage (fun _ => Except.error "x") (fun _ _ => "B") "cat" 1 1
        initialUI).2.map Prod.fst =
      [{ model := modelName
         contents := [ContentItem.textItem ("cat" ++ ratioInstruction),
                      ContentItem.inlineItem "image/png" "B"]
         responseModalities := [Modality.IMAGE, Modality.TEXT] }] :=
  single_remote_call_request_shape (fun _ => Except.error "x") (fun _ _ => "B")
    "cat" 1 1 initialUI (by decide)

/-- C10: at the moment of every remote call of a non-empty-prompt
invocation, the error display is empty and hidden — the call clearing the error on
line 74 runs before the call. -/
theorem error_display_cleared_before_call :
    ∀ (remote : Request → Except String GenResponse) (enc : ℕ → ℕ → String)
      (promptText : String) (wr hr : ℕ) (s0 : UIState), promptText ≠ "" →
      ∀ c ∈ (generateImage remote enc promptText wr hr s0).2,
        c.2.errText = "" ∧ c.2.errVisible = false := by
  intro remote enc promptText wr hr s0 h
  rw [generateImage_eq remote enc promptText wr hr s0 h]
  cases remote (composedRequest enc promptText wr hr) with
  | error msg =>
      intro c hc
      simp at hc
      simp [hc, busyUI]
  | ok response =>
      cases hscan : scanResponse response <;>
        (simp only [hscan]; intro c hc; simp at hc; simp [hc, busyUI])

/-- Witness for C10: the single call of a concrete invocation carries a
cleared error display. -/
theorem error_display_cleared_before_call_witness :
    (composedRequest (fun _ _ => "B") "cat" 1 1, busyUI).2.errText = "" ∧
    (composedRequest (fun _ _ => "B") "cat" 1 1, busyUI).2.errVisible = false :=
  error_display_cleared_before_call (fun _ => Except.error "x") (fun _ _ => "B")
    "cat" 1 1 initialUI (by decide)
    (composedRequest (fun _ _ => "B") "cat" 1 1, busyUI) (by decide)

end GenBanana
namespace GenBanana

/-- First-match-wins: when every part before `p` lacks inline data and
`p` carries `d`, the scan returns `d`, whatever comes after `p`. -/
theorem findInline_first (pre : List RespPart) (p : RespPart)
    (post : List RespPart) (d : InlineData)
    (hpre : ∀ q ∈ pre, q.inlineData = none) (hp : p.inlineData = some d) :
    findInline (pre ++ p :: post) = some d := by
  induction pre with
  | nil => simp [findInline, hp]
  | cons a as ih =>
      have ha : a.inlineData = none := hpre a (List.mem_cons_self a as)
      simp only [List.cons_append, findInline, ha]
      exact ih fun q hq => hpre q (List.mem_cons_of_mem a hq)

/-- The scan returns nothing when no part carries inline data. -/
theorem findInline_none (l : List RespPart)
    (hl : ∀ q ∈ l, q.inlineData = none) : findInline l = none := by
  induction l with
  | nil => rfl
  | cons a as ih =>
      have ha : a.inlineData = none := hl a (List.mem_cons_self a as)
      simp only [findInline, ha]
      exact ih fun q hq => hl q (List.mem_cons_of_mem a hq)

/-- C3: the result of the workflow is decided by scanning only the parts
of the first candidate in order.  (a) no candidates: the no-image message is
shown and the placeholder restored (a normal state, not an exception);
(b) the first part carrying inline data is displayed, whatever parts
follow it and whatever later candidates exist; (c) when no part of the
first candidate carries inline data the no-image message is shown, again
whatever later candidates exist. -/
theorem response_scan_first_inline_wins :
    ∀ (enc : ℕ → ℕ → String) (promptText : String) (wr hr : ℕ) (s0 : UIState)
      (response : GenResponse), promptText ≠ "" →
      (response.candidates = [] →
        (generateImage (fun _ => Except.ok response) enc promptText wr hr
            s0).1.errText = noImageMsg ∧
        (generateImage (fun _ => Except.ok response) enc promptText wr hr
            s0).1.errVisible = true ∧
        (generateImage (fun _ => Except.ok response) enc promptText wr hr
            s0).1.display = DisplayContent.placeholderContent) ∧
      (∀ c cs pre p post d, response.candidates = c :: cs →
        c.content.parts = pre ++ p :: post →
        (∀ q ∈ pre, q.inlineData = none) → p.inlineData = some d →
        (generateImage (fun _ => Except.ok response) enc promptText wr hr
            s0).1.display =
          DisplayContent.image d.data d.mimeType promptText
            (downloadName promptText)) ∧
      (∀ c cs, response.candidates = c :: cs →
        (∀ q ∈ c.content.parts, q.inlineData = none) →
        (generateImage (fun _ => Except.ok response) enc promptText wr hr
            s0).1.errText = noImageMsg ∧
        (generateImage (fun _ => Except.ok response) enc promptText wr hr
            s0).1.errVisible = true ∧
        (generateImage (fun _ => Except.ok response) enc promptText wr hr
            s0).1.display = DisplayContent.placeholderContent) := by
  intro enc promptText wr hr s0 response h
  rw [generateImage_eq _ enc promptText wr hr s0 h]
  refine ⟨?_, ?_, ?_⟩
  · intro hc
    have hscan : scanResponse response = none := by
      unfold scanResponse
      rw [hc]
    simp [hscan, setLoading, showError, clearOutput, busyUI, noImageMsg_ne_empty]
  · intro c cs pre p post d hcand hparts hpre hp
    have hscan : scanResponse response = some d := by
      unfold scanResponse
      rw [hcand]
      simp only []
      rw [hparts]
      exact findInline_first pre p post d hpre hp
    simp [hscan, setLoading, displayImage, clearOutput, busyUI]
  · intro c cs hcand hall
    have hscan : scanResponse response = none := by
      unfold scanResponse
      rw [hcand]
      simp only []
      exact findInline_none _ hall
    simp [hscan, setLoading, showError, clearOutput, busyUI, noImageMsg_ne_empty]

/-- Witness for C3: a concrete response whose first part is text-only
and whose second part carries inline data; the payload of the second part is
displayed and the third part is ignored. -/
theorem response_scan_first_inline_wins_witness :
    (generateImage
        (fun _ => Except.ok
          { candidates :=
              [{ content :=
                  { parts :=
                      [{ inlineData := none, text := some "commentary" },
                       { inlineData := some { mimeType := "image/png", data := "IMG1" },
                         text := none },
                       { inlineData := some { mimeType := "image/png", data := "IMG2" },
                         text := none }] } }] })
        (fun _ _ => "B") "cat" 1 1 initialUI).1.display =
      DisplayContent.image "IMG1" "image/png" "cat" (downloadName "cat") :=
  (response_scan_first_inline_wins (fun _ _ => "B") "cat" 1 1 initialUI
      { candidates :=
          [{ content :=
              { parts :=
                  [{ inlineData := none, text := some "commentary" },
                   { inlineData := some { mimeType := "image/png", data := "IMG1" },
                     text := none },
                   { inlineData := some { mimeType := "image/png", data := "IMG2" },
                     text := none }] } }] }
      (by decide)).2.1
    _ [] [{ inlineData := none, text := some "commentary" }]
    { inlineData := some { mimeType := "image/png", data := "IMG1" }, text := none }
    [{ inlineData := some { mimeType := "image/png", data := "IMG2" }, text := none }]
    { mimeType := "image/png", data := "IMG1" }
    rfl rfl (by decide) rfl

end GenBanana
